import Mathlib

/-!
Verification of the AGRI_RECO_GEO frontend core: the result classifier
(ResultsPanel.jsx) and the area selector / analysis submission flow
(App.jsx), shallowly embedded over ℚ (and ℝ where trigonometry is
involved).  JavaScript numbers are modelled as exact rationals; JS
truthiness on numbers and strings is modelled explicitly where a falsy
value (0, "") can change a branch.
-/

set_option maxHeartbeats 1000000
set_option autoImplicit false

namespace AgriReco

/-! ## Data model: the AnalysisResult payload (§3 of the spec) -/

/-- One entry of the rainfall series (`rainfall.features` in the payload). -/
structure RainEntry where
  date : Option String
  rain : Option ℚ
deriving DecidableEq

/-- `rainfall.statistics`. -/
structure RainfallStatistics where
  total_rainfall : Option ℚ
deriving DecidableEq

/-- The optional `rainfall` section. -/
structure RainfallSection where
  features : Option (List RainEntry)
  statistics : Option RainfallStatistics
deriving DecidableEq

/-- The optional `drought` section. -/
structure DroughtSection where
  status : Option String
deriving DecidableEq

/-- The raw analysis result; every section is optional.  The landcover
mapping is carried as a list of (classCode, pixelCount) pairs in the
object's iteration order. -/
structure AnalysisResult where
  ndvi : Option ℚ
  rainfall : Option RainfallSection
  drought : Option DroughtSection
  landcover : Option (List (Nat × Nat))
  yield_prediction : Option ℚ
deriving DecidableEq

/-- The {status, class, emoji} records returned by the classifiers. -/
structure StatusInfo where
  status : String
  cls : String
  emoji : String
deriving DecidableEq

/-! ## The classifier functions of ResultsPanel.jsx -/

/-- `getNDVIStatus` (ResultsPanel.jsx lines 21-26). -/
def getNDVIStatus (ndvi : ℚ) : StatusInfo :=
  if 0.6 ≤ ndvi then ⟨"Excellent", "ndvi-healthy", "🌿"⟩
  else if 0.4 ≤ ndvi then ⟨"Good", "ndvi-healthy", "🌱"⟩
  else if 0.2 ≤ ndvi then ⟨"Moderate", "ndvi-moderate", "🌾"⟩
  else ⟨"Poor", "ndvi-poor", "🏜️"⟩

/-- The JS condition `droughtData && droughtData.status`: some non-empty
status string, else none (undefined/missing section, missing field and the
empty string are all falsy). -/
def truthyStatus (droughtData : Option DroughtSection) : Option String :=
  match droughtData.bind DroughtSection.status with
  | none => none
  | some s => if s = "" then none else some s

/-- `d.rain || 0`: a missing rain value contributes 0 (for exact rationals
`x || 0` agrees with `getD 0`, since falsy 0 is replaced by 0 itself). -/
def rainOrZero (e : RainEntry) : ℚ := e.rain.getD 0

/-- `rainfall.reduce((sum, d) => sum + (d.rain || 0), 0)`. -/
def seriesSum (rd : List RainEntry) : ℚ := (rd.map rainOrZero).sum

/-- The average daily rainfall computed on the fallback path of
`getDroughtStatus` (line 40). -/
def avgRain (rd : List RainEntry) : ℚ := seriesSum rd / (rd.length : ℚ)

/-- `getDroughtStatus` (ResultsPanel.jsx lines 28-44). -/
def getDroughtStatus (rainfall : List RainEntry) (droughtData : Option DroughtSection) :
    StatusInfo :=
  match truthyStatus droughtData with
  | some s =>
    if s = "Normal" then ⟨"No Drought", "status-healthy", "💧"⟩
    else if s = "Mild Drought" then ⟨"Mild Drought", "status-warning", "⚠️"⟩
    else if s = "Moderate Drought" then ⟨"Moderate", "status-warning", "⚠️"⟩
    else ⟨s, "status-critical", "🔥"⟩
  | none =>
    if rainfall.length = 0 then ⟨"Unknown", "status-warning", "❓"⟩
    else
      if 5 ≤ avgRain rainfall then ⟨"No Drought", "status-healthy", "💧"⟩
      else if 2 ≤ avgRain rainfall then ⟨"Mild Drought", "status-warning", "⚠️"⟩
      else ⟨"Severe Drought", "status-critical", "🔥"⟩

/-- A row of the `LANDCOVER_CLASSES` table (ResultsPanel.jsx lines 7-19). -/
structure LandcoverInfo where
  name : String
  color : String
  cls : String
deriving DecidableEq

/-- `LANDCOVER_CLASSES` as a partial lookup: `none` for unknown codes. -/
def LANDCOVER_CLASSES (code : Nat) : Option LandcoverInfo :=
  match code with
  | 10 => some ⟨"Tree Cover", "#22c55e", "forest"⟩
  | 20 => some ⟨"Shrubland", "#84cc16", "forest"⟩
  | 30 => some ⟨"Grassland", "#a3e635", "forest"⟩
  | 40 => some ⟨"Cropland", "#10b981", "cropland"⟩
  | 50 => some ⟨"Built-up", "#64748b", "urban"⟩
  | 60 => some ⟨"Bare/Sparse", "#d4a574", "urban"⟩
  | 70 => some ⟨"Snow/Ice", "#e0f2fe", "water"⟩
  | 80 => some ⟨"Water", "#3b82f6", "water"⟩
  | 90 => some ⟨"Wetland", "#06b6d4", "water"⟩
  | 95 => some ⟨"Mangroves", "#059669", "forest"⟩
  | 100 => some ⟨"Moss/Lichen", "#65a30d", "forest"⟩
  | _ => none

/-- `x.toFixed(1)` on an exact rational: round to one decimal place
(ECMAScript picks the larger candidate on a tie, i.e. round half up for
the non-negative percentages arising here, matching `round`). -/
def toFixed1 (q : ℚ) : ℚ := (round (q * 10) : ℚ) / 10

/-- One processed landcover entry (ResultsPanel.jsx lines 98-104). -/
structure LandcoverStat where
  code : Nat
  name : String
  color : String
  cssClass : String
  percent : ℚ
deriving DecidableEq

/-- `totalPixels = Object.values(landcover).reduce((sum, val) => sum + val, 0)`. -/
def totalPixels (landcover : List (Nat × Nat)) : Nat :=
  (landcover.map Prod.snd).sum

/-- The `.map(([code, count]) => ({...}))` step building one entry. -/
def mkLandcoverStat (total : Nat) (p : Nat × Nat) : LandcoverStat where
  code := p.1
  name :=
    match LANDCOVER_CLASSES p.1 with
    | some info => info.name
    | none => "Class " ++ toString p.1
  color :=
    match LANDCOVER_CLASSES p.1 with
    | some info => info.color
    | none => "#64748b"
  cssClass :=
    match LANDCOVER_CLASSES p.1 with
    | some info => info.cls
    | none => "urban"
  percent :=
    if 0 < total then toFixed1 ((p.2 : ℚ) / (total : ℚ) * 100) else 0

/-- The sort key of `.sort((a, b) => b.percent - a.percent)`: descending
by (rounded) percent. -/
def percentGE (a b : LandcoverStat) : Prop := b.percent ≤ a.percent

instance : DecidableRel percentGE :=
  fun a b => inferInstanceAs (Decidable (b.percent ≤ a.percent))

instance : IsTotal LandcoverStat percentGE :=
  ⟨fun a b => le_total b.percent a.percent⟩

instance : IsTrans LandcoverStat percentGE :=
  ⟨fun _ _ _ h1 h2 => le_trans h2 h1⟩

/-- The mapped (unsorted) entries, in the mapping's iteration order. -/
def mappedStats (landcover : List (Nat × Nat)) : List LandcoverStat :=
  landcover.map (mkLandcoverStat (totalPixels landcover))

/-- The stable descending sort step.  `Array.prototype.sort` is stable
(ES2019) and the comparator is a consistent total preorder, so any stable
sort — here insertion sort — produces the identical list. -/
def sortedStats (landcover : List (Nat × Nat)) : List LandcoverStat :=
  (mappedStats landcover).insertionSort percentGE

/-- `landcoverStats` (ResultsPanel.jsx lines 96-106): map, stable sort
descending by percent, `.slice(0, 5)`. -/
def landcoverStats (landcover : List (Nat × Nat)) : List LandcoverStat :=
  (sortedStats landcover).take 5

/-! ## The derived values of ResultsPanel (lines 82-106, 152-158) -/

/-- `const ndviValue = results.ndvi || 0` (falsy 0 coincides with `getD 0`
over exact rationals). -/
def ndviValue (r : AnalysisResult) : ℚ := (r.ndvi).getD 0

/-- `const rainfallData = results.rainfall?.features || []`. -/
def rainfallData (r : AnalysisResult) : List RainEntry :=
  ((r.rainfall).bind (fun s => s.features)).getD []

/-- `const rainfallStats = results.rainfall?.statistics || {}`. -/
def rainfallStats (r : AnalysisResult) : RainfallStatistics :=
  ((r.rainfall).bind (fun s => s.statistics)).getD ⟨none⟩

/-- `const droughtData = results.drought || {}`. -/
def droughtData (r : AnalysisResult) : DroughtSection :=
  (r.drought).getD ⟨none⟩

/-- `getNDVIStatus(ndviValue)`. -/
def deriveNDVIStatus (r : AnalysisResult) : StatusInfo :=
  getNDVIStatus (ndviValue r)

/-- `getDroughtStatus(rainfallData, droughtData)`. -/
def deriveDroughtStatus (r : AnalysisResult) : StatusInfo :=
  getDroughtStatus (rainfallData r) (some (droughtData r))

/-- `landcoverStats` computed from `results.landcover || {}`. -/
def deriveLandcoverStats (r : AnalysisResult) : List LandcoverStat :=
  landcoverStats ((r.landcover).getD [])

/-- JS truthiness of a number: false exactly for 0 (NaN has no rational
counterpart). -/
def numTruthy (o : Option ℚ) : Bool :=
  match o with
  | some t => decide (t ≠ 0)
  | none => false

/-- The rainfall-total display value (ResultsPanel.jsx lines 152-158):
`rainfallStats.total_rainfall ? ... : rainfallData.length > 0 ? sum : 'N/A'`.
`none` models the "N/A" (unavailable) outcome; display formatting
(`toFixed(1)`) is applied after this choice and does not affect it. -/
def totalRainDisplay (stats : RainfallStatistics) (rd : List RainEntry) : Option ℚ :=
  if numTruthy stats.total_rainfall then stats.total_rainfall
  else if 0 < rd.length then some (seriesSum rd) else none

/-- The rainfall total derived from a raw result. -/
def deriveTotalRain (r : AnalysisResult) : Option ℚ :=
  totalRainDisplay (rainfallStats r) (rainfallData r)

/-! ## Area selector and session state (App.jsx) -/

/-- A map point as App.jsx stores it: `{ lat, lng }`. -/
structure GeoPoint (α : Type) where
  lat : α
  lng : α
deriving DecidableEq

/-- The `drawMode` state: `null`, `'circle'` or `'polygon'`. -/
inductive DrawMode where
  | circle
  | polygon
deriving DecidableEq

/-- The App component's state hooks relevant to the selection/analysis
life cycle.  `polygon` models the Google-Maps overlay handle (present or
absent). -/
structure AppState (α : Type) where
  polygon : Option Unit
  polygonPath : List (GeoPoint α)
  circleCenter : Option (GeoPoint α)
  circleRadius : α
  drawMode : Option DrawMode
  showDrawOptions : Bool
  isLoading : Bool
  analysisResults : Option AnalysisResult
  error : Option String
deriving DecidableEq

/-- `circleToPolygon` (App.jsx lines 171-180), generic over the number
type with the trigonometric functions and π passed in (instantiated with
`Real.cos`, `Real.sin`, `Real.pi` in the theorems). -/
def circleToPolygon {α : Type} [Field α] (cosf sinf : α → α) (pi : α)
    (center : GeoPoint α) (radius : α) (numPoints : Nat) : List (GeoPoint α) :=
  (List.range numPoints).map (fun (i : Nat) =>
    ({ lat := center.lat + (radius / 111320) * cosf (((i : α) / (numPoints : α)) * 2 * pi)
       lng := center.lng + (radius / (111320 * cosf (center.lat * pi / 180)))
                * sinf (((i : α) / (numPoints : α)) * 2 * pi) } : GeoPoint α))

/-- `handleMapClick` (App.jsx lines 183-195): in circle mode, commit the
clicked center and the 32-gon derived from it; otherwise no effect. -/
def handleMapClick {α : Type} [Field α] (cosf sinf : α → α) (pi : α)
    (s : AppState α) (clicked : GeoPoint α) : AppState α :=
  if s.drawMode = some DrawMode.circle then
    { s with
      circleCenter := some clicked
      polygonPath := circleToPolygon cosf sinf pi clicked s.circleRadius 32
      drawMode := none
      showDrawOptions := false }
  else s

/-- `handleClearBoundary` (App.jsx lines 231-240): drop the overlay, the
path, the circle center, the current results and the draw mode. -/
def handleClearBoundary {α : Type} (s : AppState α) : AppState α :=
  { s with
    polygon := none
    polygonPath := []
    circleCenter := none
    analysisResults := none
    drawMode := none }

/-- What a failed HTTP request carries: `err.response?.data?.error` when
the server answered with a body, `none` for network errors/timeouts. -/
structure ErrorResponse where
  serverMessage : Option String
deriving DecidableEq

/-- The message set when submission is attempted with fewer than 3
vertices (App.jsx line 244). -/
def invalidSelectionMsg : String := "Please select a farm area first."

/-- The generic failure message (App.jsx line 269). -/
def genericFailureMsg : String := "Failed to analyze the area. Please try again."

/-- `err.response?.data?.error || 'Failed to analyze...'`: the server
message is used only when present and non-empty (truthy). -/
def errorDisplay (e : ErrorResponse) : String :=
  match e.serverMessage with
  | some m => if m = "" then genericFailureMsg else m
  | none => genericFailureMsg

/-- The ring built by `handleAnalyze` (App.jsx lines 252-253): each vertex
as `[lng, lat]`, then the first pair appended again.  (`coords.take 1`
equals `[coords[0]]` on the non-empty paths the guard admits.) -/
def buildRing {α : Type} (path : List (GeoPoint α)) : List (α × α) :=
  (path.map (fun p => (p.lng, p.lat))) ++ (path.map (fun p => (p.lng, p.lat))).take 1

/-- The GeoJSON-style geometry sent to the backend (App.jsx lines 255-258). -/
structure Geometry (α : Type) where
  typ : String
  coordinates : List (List (α × α))
deriving DecidableEq

/-- `{ type: 'Polygon', coordinates: [coordinates] }`. -/
def buildGeometry {α : Type} (path : List (GeoPoint α)) : Geometry α :=
  ⟨"Polygon", [buildRing path]⟩

/-- `handleAnalyze` (App.jsx lines 242-273) as a state transition.  The
second component is the request issued (`none` when submission is
blocked); `resp` is the outcome of the single outstanding request.  The
returned state is the state once the handler has settled (after the
`finally`). -/
def handleAnalyze {α : Type} (s : AppState α) (resp : Except ErrorResponse AnalysisResult) :
    AppState α × Option (Geometry α) :=
  if s.polygonPath.length < 3 then
    ({ s with error := some invalidSelectionMsg }, none)
  else
    match resp with
    | Except.ok r =>
      ({ s with isLoading := false, error := none, analysisResults := some r },
       some (buildGeometry s.polygonPath))
    | Except.error e =>
      ({ s with isLoading := false, error := some (errorDisplay e) },
       some (buildGeometry s.polygonPath))

/-! ## Concrete fixtures used by witnesses -/

/-- An AnalysisResult with every optional section absent. -/
def emptyResult : AnalysisResult := ⟨none, none, none, none, none⟩

/-- A result whose statistics carry a non-zero total. -/
def statsResult : AnalysisResult :=
  ⟨none, some ⟨some [⟨none, some 1⟩], some ⟨some 42.5⟩⟩, none, none, none⟩

/-- A result carrying only a drought status string. -/
def droughtOnlyResult : AnalysisResult :=
  ⟨none, none, some ⟨some "Severe Drought"⟩, none, none⟩

/-- A result with an NDVI exactly at the 0.6 boundary. -/
def boundaryNdviResult : AnalysisResult := ⟨some 0.6, none, none, none, none⟩

/-- A 3-vertex committed path over ℚ. -/
def path3 : List (GeoPoint ℚ) := [⟨1, 2⟩, ⟨3, 4⟩, ⟨5, 6⟩]

/-- A session holding a committed 3-vertex boundary and a prior result. -/
def sessionWithResult : AppState ℚ :=
  ⟨none, path3, none, 250, none, false, false, some boundaryNdviResult, none⟩

/-- A session with an empty (not yet committed) path. -/
def emptySession : AppState ℚ :=
  ⟨none, [], none, 250, none, false, false, some boundaryNdviResult, none⟩

/-- A session in circle mode over ℝ, radius 250. -/
def circleModeState : AppState ℝ :=
  ⟨none, [], none, 250, some DrawMode.circle, false, false, none, none⟩

/-- The origin as a map point over ℝ. -/
def originPoint : GeoPoint ℝ := ⟨0, 0⟩

end AgriReco

namespace AgriReco

/-! ## Theorems -/

/-- Claim C6: vegetation classification uses `ndvi` with 0 substituted when
the field is absent, with inclusive lower-bound thresholds 0.6/0.4/0.2;
boundary values belong to the higher category (`ndvi = 0.6` is Excellent). -/
theorem C6_vegetation_thresholds (r : AnalysisResult) :
    (r.ndvi = none → deriveNDVIStatus r = ⟨"Poor", "ndvi-poor", "🏜️"⟩) ∧
    (∀ v : ℚ, r.ndvi = some v → 0.6 ≤ v →
      deriveNDVIStatus r = ⟨"Excellent", "ndvi-healthy", "🌿"⟩) ∧
    (∀ v : ℚ, r.ndvi = some v → 0.4 ≤ v → v < 0.6 →
      deriveNDVIStatus r = ⟨"Good", "ndvi-healthy", "🌱"⟩) ∧
    (∀ v : ℚ, r.ndvi = some v → 0.2 ≤ v → v < 0.4 →
      deriveNDVIStatus r = ⟨"Moderate", "ndvi-moderate", "🌾"⟩) ∧
    (∀ v : ℚ, r.ndvi = some v → v < 0.2 →
      deriveNDVIStatus r = ⟨"Poor", "ndvi-poor", "🏜️"⟩) ∧
    (r.ndvi = some 0.6 → deriveNDVIStatus r = ⟨"Excellent", "ndvi-healthy", "🌿"⟩) := by
  refine ⟨?_, ?_, ?_, ?_, ?_, ?_⟩
  · intro h
    unfold deriveNDVIStatus ndviValue
    rw [h]
    with_unfolding_all rfl
  · intro v hv h
    unfold deriveNDVIStatus ndviValue getNDVIStatus
    rw [hv, Option.getD_some, if_pos h]
  · intro v hv h1 h2
    unfold deriveNDVIStatus ndviValue getNDVIStatus
    rw [hv, Option.getD_some, if_neg (not_le.mpr h2), if_pos h1]
  · intro v hv h1 h2
    unfold deriveNDVIStatus ndviValue getNDVIStatus
    rw [hv, Option.getD_some, if_neg (not_le.mpr (lt_of_lt_of_le h2 (by norm_num))),
      if_neg (not_le.mpr h2), if_pos h1]
  · intro v hv h
    unfold deriveNDVIStatus ndviValue getNDVIStatus
    rw [hv, Option.getD_some, if_neg (not_le.mpr (lt_of_lt_of_le h (by norm_num))),
      if_neg (not_le.mpr (lt_of_lt_of_le h (by norm_num))), if_neg (not_le.mpr h)]
  · intro h
    unfold deriveNDVIStatus ndviValue getNDVIStatus
    rw [h, Option.getD_some, if_pos le_rfl]

/-- Witness for C6 at the 0.6 boundary. -/
theorem C6_vegetation_thresholds_witness :
    deriveNDVIStatus boundaryNdviResult = ⟨"Excellent", "ndvi-healthy", "🌿"⟩ :=
  (C6_vegetation_thresholds boundaryNdviResult).2.2.2.2.2 rfl

/-- Claim C1 counterexample: when `statistics.total_rainfall` is present but
equal to 0 (falsy), the code does NOT use it — it falls through to the
series sum (here 3), contradicting "the value is used ... also when the
present value equals 0". -/
theorem C1_zero_total_counterexample :
    deriveTotalRain
        { ndvi := none
          rainfall := some ⟨some [⟨none, some 1⟩, ⟨none, some 2⟩], some ⟨some 0⟩⟩
          drought := none
          landcover := none
          yield_prediction := none } = some 3 ∧
    some (3 : ℚ) ≠ some (0 : ℚ) := by
  refine ⟨by with_unfolding_all rfl, by norm_num⟩

/-- Claim C1 (amended): the three-tier fallback holds with the first tier
taken only when `total_rainfall` is present AND non-zero; a present zero
value falls through to the series sum (missing rain entries contribute 0),
and with no series the total is unavailable. -/
theorem C1_rainfall_total_fallback (r : AnalysisResult) :
    (∀ t : ℚ, (rainfallStats r).total_rainfall = some t → t ≠ 0 →
      deriveTotalRain r = some t) ∧
    ((rainfallStats r).total_rainfall = none ∨ (rainfallStats r).total_rainfall = some 0 →
      rainfallData r ≠ [] → deriveTotalRain r = some (seriesSum (rainfallData r))) ∧
    ((rainfallStats r).total_rainfall = none ∨ (rainfallStats r).total_rainfall = some 0 →
      rainfallData r = [] → deriveTotalRain r = none) ∧
    (∀ (e : RainEntry) (rd : List RainEntry), e.rain = none →
      seriesSum (e :: rd) = seriesSum rd) := by
  refine ⟨?_, ?_, ?_, ?_⟩
  · intro t ht hne
    simp [deriveTotalRain, totalRainDisplay, numTruthy, ht, hne]
  · intro hst hne
    have hlen : 0 < (rainfallData r).length := List.length_pos.mpr hne
    rcases hst with h | h <;>
      simp [deriveTotalRain, totalRainDisplay, numTruthy, h, hlen]
  · intro hst hnil
    rcases hst with h | h <;>
      simp [deriveTotalRain, totalRainDisplay, numTruthy, h, hnil]
  · intro e rd h
    simp [seriesSum, rainOrZero, h]

/-- Witness for C1 (amended): a present non-zero total is preferred over
the series. -/
theorem C1_rainfall_total_fallback_witness :
    deriveTotalRain statsResult = some 42.5 :=
  (C1_rainfall_total_fallback statsResult).1 42.5 (by with_unfolding_all rfl) (by norm_num)

/-- Claim C8: each of the four computations tolerates total absence of its
input section, yielding its documented default (Poor vegetation, Unknown
drought, empty breakdown, unavailable total) instead of failing; in the
embedding every classifier is a total function. -/
theorem C8_missing_sections_safe (r : AnalysisResult) :
    (r.ndvi = none → deriveNDVIStatus r = ⟨"Poor", "ndvi-poor", "🏜️"⟩) ∧
    (r.drought = none → r.rainfall = none →
      deriveDroughtStatus r = ⟨"Unknown", "status-warning", "❓"⟩) ∧
    (r.landcover = none → deriveLandcoverStats r = []) ∧
    (r.rainfall = none → deriveTotalRain r = none) := by
  refine ⟨?_, ?_, ?_, ?_⟩
  · intro h
    unfold deriveNDVIStatus ndviValue
    rw [h]
    with_unfolding_all rfl
  · intro hd hr
    unfold deriveDroughtStatus droughtData rainfallData
    rw [hd, hr]
    decide
  · intro h
    unfold deriveLandcoverStats
    rw [h]
    decide
  · intro h
    unfold deriveTotalRain rainfallStats rainfallData
    rw [h]
    decide

/-- Witness for C8 on the fully-empty result. -/
theorem C8_missing_sections_safe_witness :
    deriveNDVIStatus emptyResult = ⟨"Poor", "ndvi-poor", "🏜️"⟩ ∧
    deriveDroughtStatus emptyResult = ⟨"Unknown", "status-warning", "❓"⟩ ∧
    deriveLandcoverStats emptyResult = [] ∧
    deriveTotalRain emptyResult = none :=
  ⟨(C8_missing_sections_safe emptyResult).1 rfl,
   (C8_missing_sections_safe emptyResult).2.1 rfl rfl,
   (C8_missing_sections_safe emptyResult).2.2.1 rfl,
   (C8_missing_sections_safe emptyResult).2.2.2 rfl⟩

/-- Claim C10: clearing the boundary resets the vertex list, removes the
circle center and the polygon overlay, and additionally discards the
current AnalysisResult; the error, radius and loading flag are untouched. -/
theorem C10_clear_discards_result {α : Type} (s : AppState α) :
    (handleClearBoundary s).polygonPath = [] ∧
    (handleClearBoundary s).circleCenter = none ∧
    (handleClearBoundary s).polygon = none ∧
    (handleClearBoundary s).analysisResults = none ∧
    (handleClearBoundary s).drawMode = none ∧
    (handleClearBoundary s).error = s.error ∧
    (handleClearBoundary s).circleRadius = s.circleRadius ∧
    (handleClearBoundary s).isLoading = s.isLoading ∧
    (handleClearBoundary s).showDrawOptions = s.showDrawOptions :=
  ⟨rfl, rfl, rfl, rfl, rfl, rfl, rfl, rfl, rfl⟩

end AgriReco

namespace AgriReco

/-- On a truthy (present, non-empty) drought status the classifier follows
the literal string mapping of `getDroughtStatus`. -/
theorem deriveDrought_of_status (r : AnalysisResult) (s : String)
    (h : (droughtData r).status = some s) (hne : s ≠ "") :
    deriveDroughtStatus r =
      if s = "Normal" then ⟨"No Drought", "status-healthy", "💧"⟩
      else if s = "Mild Drought" then ⟨"Mild Drought", "status-warning", "⚠️"⟩
      else if s = "Moderate Drought" then ⟨"Moderate", "status-warning", "⚠️"⟩
      else ⟨s, "status-critical", "🔥"⟩ := by
  have ht : truthyStatus (some (droughtData r)) = some s := by
    unfold truthyStatus
    rw [Option.some_bind, h]
    show (if s = "" then none else some s) = some s
    rw [if_neg hne]
  unfold deriveDroughtStatus getDroughtStatus
  rw [ht]

/-- With no truthy drought status the classifier falls back to the
rainfall series. -/
theorem deriveDrought_fallback (r : AnalysisResult)
    (h : (droughtData r).status = none ∨ (droughtData r).status = some "") :
    deriveDroughtStatus r =
      if (rainfallData r).length = 0 then ⟨"Unknown", "status-warning", "❓"⟩
      else if 5 ≤ avgRain (rainfallData r) then ⟨"No Drought", "status-healthy", "💧"⟩
      else if 2 ≤ avgRain (rainfallData r) then ⟨"Mild Drought", "status-warning", "⚠️"⟩
      else ⟨"Severe Drought", "status-critical", "🔥"⟩ := by
  have ht : truthyStatus (some (droughtData r)) = none := by
    unfold truthyStatus
    rcases h with h | h
    · rw [Option.some_bind, h]
    · rw [Option.some_bind, h]
      show (if ("" : String) = "" then (none : Option String) else some "") = none
      rw [if_pos rfl]
  unfold deriveDroughtStatus getDroughtStatus
  rw [ht]

/-- Claim C2: drought classification follows the case analysis — literal
string mapping on a present non-empty status (any other non-empty string
kept verbatim with critical severity); otherwise the series-average
fallback with ≥5 / ≥2 thresholds; otherwise Unknown. -/
theorem C2_drought_classification (r : AnalysisResult) :
    ((droughtData r).status = some "Normal" →
      deriveDroughtStatus r = ⟨"No Drought", "status-healthy", "💧"⟩) ∧
    ((droughtData r).status = some "Mild Drought" →
      deriveDroughtStatus r = ⟨"Mild Drought", "status-warning", "⚠️"⟩) ∧
    ((droughtData r).status = some "Moderate Drought" →
      deriveDroughtStatus r = ⟨"Moderate", "status-warning", "⚠️"⟩) ∧
    (∀ s : String, (droughtData r).status = some s → s ≠ "" → s ≠ "Normal" →
      s ≠ "Mild Drought" → s ≠ "Moderate Drought" →
      deriveDroughtStatus r = ⟨s, "status-critical", "🔥"⟩) ∧
    ((droughtData r).status = none ∨ (droughtData r).status = some "" →
      rainfallData r ≠ [] →
      (5 ≤ avgRain (rainfallData r) →
        deriveDroughtStatus r = ⟨"No Drought", "status-healthy", "💧"⟩) ∧
      (2 ≤ avgRain (rainfallData r) → avgRain (rainfallData r) < 5 →
        deriveDroughtStatus r = ⟨"Mild Drought", "status-warning", "⚠️"⟩) ∧
      (avgRain (rainfallData r) < 2 →
        deriveDroughtStatus r = ⟨"Severe Drought", "status-critical", "🔥"⟩)) ∧
    ((droughtData r).status = none ∨ (droughtData r).status = some "" →
      rainfallData r = [] →
      deriveDroughtStatus r = ⟨"Unknown", "status-warning", "❓"⟩) := by
  refine ⟨?_, ?_, ?_, ?_, ?_, ?_⟩
  · intro h
    rw [deriveDrought_of_status r "Normal" h (by decide), if_pos rfl]
  · intro h
    rw [deriveDrought_of_status r "Mild Drought" h (by decide), if_neg (by decide), if_pos rfl]
  · intro h
    rw [deriveDrought_of_status r "Moderate Drought" h (by decide), if_neg (by decide),
      if_neg (by decide), if_pos rfl]
  · intro s h hne h1 h2 h3
    rw [deriveDrought_of_status r s h hne, if_neg h1, if_neg h2, if_neg h3]
  · intro hst hne
    have hlen : ¬ (rainfallData r).length = 0 := by
      have h0 := List.length_pos.mpr hne
      omega
    refine ⟨?_, ?_, ?_⟩
    · intro h5
      rw [deriveDrought_fallback r hst, if_neg hlen, if_pos h5]
    · intro h2le hlt5
      rw [deriveDrought_fallback r hst, if_neg hlen, if_neg (not_le.mpr hlt5), if_pos h2le]
    · intro hlt2
      rw [deriveDrought_fallback r hst, if_neg hlen,
        if_neg (not_le.mpr (lt_trans hlt2 (by norm_num))), if_neg (not_le.mpr hlt2)]
  · intro hst hnil
    rw [deriveDrought_fallback r hst, if_pos (by rw [hnil]; rfl)]

/-- Witness for C2: an unrecognized non-empty status is preserved verbatim
with critical severity. -/
theorem C2_drought_classification_witness :
    deriveDroughtStatus droughtOnlyResult = ⟨"Severe Drought", "status-critical", "🔥"⟩ :=
  (C2_drought_classification droughtOnlyResult).2.2.2.1 "Severe Drought"
    (by decide) (by decide) (by decide) (by decide) (by decide)

/-- Claim C7: with fewer than 3 vertices, submission sets the
user-visible InvalidSelection error, issues no request, and leaves every
other piece of state (selection, prior result, loading flag) unchanged. -/
theorem C7_invalid_selection_blocks {α : Type} (s : AppState α)
    (resp : Except ErrorResponse AnalysisResult) (h : s.polygonPath.length < 3) :
    handleAnalyze s resp = ({ s with error := some invalidSelectionMsg }, none) ∧
    (handleAnalyze s resp).2 = none ∧
    (handleAnalyze s resp).1.error = some invalidSelectionMsg ∧
    (handleAnalyze s resp).1.polygonPath = s.polygonPath ∧
    (handleAnalyze s resp).1.circleCenter = s.circleCenter ∧
    (handleAnalyze s resp).1.polygon = s.polygon ∧
    (handleAnalyze s resp).1.analysisResults = s.analysisResults ∧
    (handleAnalyze s resp).1.isLoading = s.isLoading := by
  have he : handleAnalyze s resp = ({ s with error := some invalidSelectionMsg }, none) := by
    unfold handleAnalyze
    rw [if_pos h]
  refine ⟨he, ?_, ?_, ?_, ?_, ?_, ?_, ?_⟩ <;> rw [he]

/-- Witness for C7 on an empty selection. -/
theorem C7_invalid_selection_blocks_witness :
    (handleAnalyze emptySession (Except.error ⟨none⟩)).2 = none ∧
    (handleAnalyze emptySession (Except.error ⟨none⟩)).1.analysisResults
      = emptySession.analysisResults :=
  ⟨(C7_invalid_selection_blocks emptySession (Except.error ⟨none⟩) (by decide)).2.1,
   (C7_invalid_selection_blocks emptySession (Except.error ⟨none⟩) (by decide)).2.2.2.2.2.2.1⟩

/-- Claim C9 counterexample: a failure response whose body carries the
empty string as its server message (present, but falsy) is shown as the
generic message, not the server-supplied one. -/
theorem C9_empty_message_counterexample :
    (handleAnalyze sessionWithResult (Except.error ⟨some ""⟩)).1.error
      = some genericFailureMsg ∧
    genericFailureMsg ≠ "" ∧
    (handleAnalyze sessionWithResult (Except.error ⟨some ""⟩)).1.error ≠ some "" := by
  refine ⟨by decide, by decide, by decide⟩

/-- Claim C9 (amended): on a failed request the prior result is retained
and the error shown is the server-supplied message when a non-empty one is
present in the response body, else the generic message (network errors,
timeouts and empty messages all yield the generic message). -/
theorem C9_failure_keeps_result {α : Type} (s : AppState α) (e : ErrorResponse)
    (h : 3 ≤ s.polygonPath.length) :
    (handleAnalyze s (Except.error e)).1.analysisResults = s.analysisResults ∧
    (handleAnalyze s (Except.error e)).1.error = some (errorDisplay e) ∧
    (∀ m : String, e.serverMessage = some m → m ≠ "" → errorDisplay e = m) ∧
    (e.serverMessage = none → errorDisplay e = genericFailureMsg) ∧
    (e.serverMessage = some "" → errorDisplay e = genericFailureMsg) ∧
    (handleAnalyze s (Except.error e)).1.polygonPath = s.polygonPath ∧
    (handleAnalyze s (Except.error e)).1.isLoading = false := by
  have he : handleAnalyze s (Except.error e)
      = ({ s with isLoading := false, error := some (errorDisplay e) },
         some (buildGeometry s.polygonPath)) := by
    unfold handleAnalyze
    rw [if_neg (not_lt.mpr h)]
  refine ⟨?_, ?_, ?_, ?_, ?_, ?_, ?_⟩
  · rw [he]
  · rw [he]
  · intro m hm hne
    unfold errorDisplay
    rw [hm]
    show (if m = "" then genericFailureMsg else m) = m
    rw [if_neg hne]
  · intro hm
    unfold errorDisplay
    rw [hm]
  · intro hm
    unfold errorDisplay
    rw [hm]
    show (if ("" : String) = "" then genericFailureMsg else "") = genericFailureMsg
    rw [if_pos rfl]
  · rw [he]
  · rw [he]

/-- Witness for C9 (amended): a network failure leaves the stored result
untouched and shows the generic message. -/
theorem C9_failure_keeps_result_witness :
    (handleAnalyze sessionWithResult (Except.error ⟨none⟩)).1.analysisResults
      = sessionWithResult.analysisResults ∧
    errorDisplay ⟨none⟩ = genericFailureMsg :=
  ⟨(C9_failure_keeps_result sessionWithResult ⟨none⟩ (by decide)).1,
   (C9_failure_keeps_result sessionWithResult ⟨none⟩ (by decide)).2.2.2.1 rfl⟩

/-- Claim C5: the exported ring lists each vertex as a `[lng, lat]` pair
(swapped from the lat-first field order), has length one more than the
vertex count, closes with a copy of the first pair, and is the single
ring of the Polygon geometry. -/
theorem C5_request_ring {α : Type} (path : List (GeoPoint α)) (h : 3 ≤ path.length) :
    (buildRing path).length = path.length + 1 ∧
    (buildRing path).head? = (buildRing path).getLast? ∧
    (∀ (i : Nat) (p : GeoPoint α), path[i]? = some p →
      (buildRing path)[i]? = some (p.lng, p.lat)) ∧
    (buildGeometry path).coordinates = [buildRing path] ∧
    (buildGeometry path).typ = "Polygon" := by
  obtain ⟨q, rest, rfl⟩ : ∃ q rest, path = q :: rest := by
    cases path with
    | nil => simp at h
    | cons a l => exact ⟨a, l, rfl⟩
  have hb : buildRing (q :: rest)
      = ((q.lng, q.lat) :: rest.map (fun p => (p.lng, p.lat))) ++ [(q.lng, q.lat)] := by
    simp [buildRing]
  refine ⟨?_, ?_, ?_, rfl, rfl⟩
  · rw [hb]
    simp
  · rw [hb, List.getLast?_concat]
    rfl
  · intro i p hp
    have hi : i < (q :: rest).length := by
      rcases List.getElem?_eq_some.mp hp with ⟨hlt, _⟩
      exact hlt
    rw [hb, List.getElem?_append, if_pos (by simpa using hi)]
    have hm : ((q :: rest).map (fun p => (p.lng, p.lat)))[i]? = some (p.lng, p.lat) := by
      rw [List.getElem?_map, hp]
      rfl
    exact hm

/-- Witness for C5 on a concrete 3-vertex path. -/
theorem C5_request_ring_witness :
    (buildRing path3).length = path3.length + 1 ∧
    (buildRing path3).head? = (buildRing path3).getLast? :=
  ⟨(C5_request_ring path3 (by decide)).1, (C5_request_ring path3 (by decide)).2.1⟩

end AgriReco

namespace AgriReco

/-- The i-th sampled vertex of `circleToPolygon`, for any index below the
sample count. -/
theorem circleToPolygon_getElem {α : Type} [Field α] (cosf sinf : α → α) (pi : α)
    (center : GeoPoint α) (radius : α) (n i : Nat) (hi : i < n) :
    (circleToPolygon cosf sinf pi center radius n)[i]? =
      some ⟨center.lat + (radius / 111320) * cosf (((i : α) / (n : α)) * 2 * pi),
            center.lng + (radius / (111320 * cosf (center.lat * pi / 180)))
              * sinf (((i : α) / (n : α)) * 2 * pi)⟩ := by
  unfold circleToPolygon
  rw [List.getElem?_map, List.getElem?_range hi]
  rfl

/-- Claim C4: placing a circle in circle mode commits a 32-vertex polygon
whose i-th vertex lies at the stated equirectangular offset of angle
2·π·i/32, fully replaces any prior path (the result is independent of the
previous `polygonPath`), and is ready for analysis (≥ 3 vertices). -/
theorem C4_place_circle (s : AppState ℝ) (c : GeoPoint ℝ)
    (hmode : s.drawMode = some DrawMode.circle) (hr : 0 < s.circleRadius) :
    (handleMapClick Real.cos Real.sin Real.pi s c).polygonPath.length = 32 ∧
    (∀ i : Nat, i < 32 →
      (handleMapClick Real.cos Real.sin Real.pi s c).polygonPath[i]? =
        some ⟨c.lat + (s.circleRadius / 111320) * Real.cos (2 * Real.pi * i / 32),
              c.lng + (s.circleRadius / (111320 * Real.cos (c.lat * Real.pi / 180)))
                * Real.sin (2 * Real.pi * i / 32)⟩) ∧
    3 ≤ (handleMapClick Real.cos Real.sin Real.pi s c).polygonPath.length ∧
    (∀ old : List (GeoPoint ℝ),
      (handleMapClick Real.cos Real.sin Real.pi { s with polygonPath := old } c).polygonPath
        = (handleMapClick Real.cos Real.sin Real.pi s c).polygonPath) ∧
    (handleMapClick Real.cos Real.sin Real.pi s c).circleCenter = some c := by
  have he : handleMapClick Real.cos Real.sin Real.pi s c
      = { s with
          circleCenter := some c
          polygonPath := circleToPolygon Real.cos Real.sin Real.pi c s.circleRadius 32
          drawMode := none
          showDrawOptions := false } := by
    unfold handleMapClick
    rw [if_pos hmode]
  refine ⟨?_, ?_, ?_, ?_, ?_⟩
  · rw [he]
    show (circleToPolygon Real.cos Real.sin Real.pi c s.circleRadius 32).length = 32
    unfold circleToPolygon
    rw [List.length_map, List.length_range]
  · intro i hi
    rw [he]
    show (circleToPolygon Real.cos Real.sin Real.pi c s.circleRadius 32)[i]? = _
    rw [circleToPolygon_getElem Real.cos Real.sin Real.pi c s.circleRadius 32 i hi]
    have hang : ((i : ℝ) / ((32 : Nat) : ℝ)) * 2 * Real.pi = 2 * Real.pi * (i : ℝ) / 32 := by
      push_cast
      ring
    rw [hang]
  · rw [he]
    show 3 ≤ (circleToPolygon Real.cos Real.sin Real.pi c s.circleRadius 32).length
    unfold circleToPolygon
    rw [List.length_map, List.length_range]
    norm_num
  · intro old
    simp [handleMapClick, hmode]
  · rw [he]

/-- Witness for C4: a concrete placement at the origin with radius 250
in circle mode yields a ready 32-vertex path. -/
theorem C4_place_circle_witness :
    (handleMapClick Real.cos Real.sin Real.pi circleModeState originPoint).polygonPath.length
      = 32 ∧
    3 ≤ (handleMapClick Real.cos Real.sin Real.pi circleModeState originPoint).polygonPath.length :=
  ⟨(C4_place_circle circleModeState originPoint rfl (by norm_num [circleModeState])).1,
   (C4_place_circle circleModeState originPoint rfl (by norm_num [circleModeState])).2.2.1⟩

/-- Claim C3: the land cover breakdown sums all counts, computes each
percent as count/total·100 rounded to one decimal (0 when the total is 0,
with no error), sorts descending by percent keeping ties in iteration
order (stability of the sort step), keeps exactly the top
min(5, n) entries — each of which originates from an input pair, none
synthesized — and resolves known codes through the table while unknown
codes get "Class {code}" and the neutral color. -/
theorem C3_landcover_breakdown (lc : List (Nat × Nat)) :
    totalPixels lc = (lc.map Prod.snd).sum ∧
    (∀ code count : Nat, 0 < totalPixels lc →
      (mkLandcoverStat (totalPixels lc) (code, count)).percent =
        (round ((count : ℚ) / (totalPixels lc : ℚ) * 100 * 10) : ℚ) / 10) ∧
    (∀ code count : Nat, totalPixels lc = 0 →
      (mkLandcoverStat (totalPixels lc) (code, count)).percent = 0) ∧
    List.Pairwise (fun a b => b.percent ≤ a.percent) (landcoverStats lc) ∧
    (∀ a b : LandcoverStat, a.percent = b.percent →
      [a, b].Sublist (mappedStats lc) → [a, b].Sublist (sortedStats lc)) ∧
    landcoverStats lc = (sortedStats lc).take 5 ∧
    (landcoverStats lc).length = min 5 lc.length ∧
    (∀ e ∈ landcoverStats lc, ∃ p, p ∈ lc ∧ e = mkLandcoverStat (totalPixels lc) p) ∧
    (∀ code count : Nat, ∀ info : LandcoverInfo, LANDCOVER_CLASSES code = some info →
      (mkLandcoverStat (totalPixels lc) (code, count)).name = info.name ∧
      (mkLandcoverStat (totalPixels lc) (code, count)).color = info.color ∧
      (mkLandcoverStat (totalPixels lc) (code, count)).cssClass = info.cls) ∧
    (∀ code count : Nat, LANDCOVER_CLASSES code = none →
      (mkLandcoverStat (totalPixels lc) (code, count)).name = "Class " ++ toString code ∧
      (mkLandcoverStat (totalPixels lc) (code, count)).color = "#64748b") := by
  refine ⟨rfl, ?_, ?_, ?_, ?_, rfl, ?_, ?_, ?_, ?_⟩
  · intro code count h
    simp only [mkLandcoverStat]
    rw [if_pos h]
    rfl
  · intro code count h
    simp only [mkLandcoverStat]
    rw [if_neg (by omega)]
  · have hs : List.Sorted percentGE (sortedStats lc) :=
      List.sorted_insertionSort percentGE (mappedStats lc)
    have ht : (landcoverStats lc).Pairwise percentGE :=
      List.Pairwise.sublist (List.take_sublist 5 (sortedStats lc)) hs
    exact ht.imp (fun hab => hab)
  · intro a b hper hsub
    exact List.pair_sublist_insertionSort hper.ge hsub
  · show ((sortedStats lc).take 5).length = min 5 lc.length
    rw [List.length_take]
    unfold sortedStats
    rw [List.length_insertionSort]
    unfold mappedStats
    rw [List.length_map]
  · intro e he
    have h1 : e ∈ sortedStats lc := List.mem_of_mem_take he
    have h2 : e ∈ mappedStats lc := (List.mem_insertionSort percentGE).mp h1
    rcases List.mem_map.mp h2 with ⟨p, hp, hpe⟩
    exact ⟨p, hp, hpe.symm⟩
  · intro code count info h
    refine ⟨?_, ?_, ?_⟩ <;> simp only [mkLandcoverStat] <;> rw [h]
  · intro code count h
    refine ⟨?_, ?_⟩ <;> simp only [mkLandcoverStat] <;> rw [h]

/-- Witness for C3 on the mapping {40: 80, 80: 20}. -/
theorem C3_landcover_breakdown_witness :
    (mkLandcoverStat (totalPixels [(40, 80), (80, 20)]) (40, 80)).percent = 80 := by
  have h := (C3_landcover_breakdown [(40, 80), (80, 20)]).2.1 40 80 (by decide)
  rw [h, round_eq]
  norm_num [totalPixels]

end AgriReco
